import Mathlib

/-!
Verification of the youtube-playlist-backup extension core against its
design specification.  The JavaScript source is shallowly embedded:

* `src/lib/sync-utils.js` — `isVideoUnavailable`, `mergeVideos`,
  `countUnavailable` become pure Lean functions on a `Video` record.
  JavaScript objects are modelled as structures; keys that the code may
  leave absent (`originalTitle`, …) are `Option`-valued, and JavaScript
  truthiness of strings/numbers is modelled explicitly (`strTruthy`,
  `intTruthy`: `undefined`, `""` and `0` are falsy).
* `src/lib/youtube-api.js` (authorization-code/PKCE variant) — token
  storage and the non-interactive `getAuthToken` decision chain become
  explicit state-passing functions over a `TokenState`; network outcomes
  are parameters.
* `src/background/service-worker.js` — `handleMessage`,
  `syncAllPlaylists` and `syncPlaylist` become functions parameterised
  by the outcomes of their collaborator calls; a thrown exception is an
  `Except.error` crossing the function boundary.
* `src/lib/storage.js` — the persisted playlist map is an ordered
  association list with JavaScript object-assignment semantics
  (`setKey`, `lookupKey`).
-/

/-- A playlist item as produced by `fetchAllPlaylistItems` and stored by the
extension.  `originalTitle`, `originalChannelTitle`, `originalThumbnailUrl`
are `Option`-valued because the JavaScript object only sometimes carries
those keys. -/
structure Video where
  videoId : String
  title : String := ""
  description : String := ""
  channelTitle : String := ""
  channelId : String := ""
  thumbnailUrl : String := ""
  position : Nat := 0
  addedAt : String := ""
  isUnavailable : Bool := false
  originalTitle : Option String := none
  originalChannelTitle : Option String := none
  originalThumbnailUrl : Option String := none
deriving DecidableEq, Repr

/-- JavaScript truthiness of an optional string: `undefined` and `""` are
falsy, every other string is truthy. -/
def strTruthy : Option String → Bool
  | none => false
  | some s => !(s == "")

/-- JavaScript truthiness of an optional number: `undefined` and `0` are
falsy. -/
def intTruthy : Option Int → Bool
  | none => false
  | some n => !(n == 0)

/-- `isVideoUnavailable` from `src/lib/sync-utils.js`:
`video.isUnavailable || video.title === 'Deleted video' || video.title === 'Private video'`. -/
def isVideoUnavailable (video : Video) : Bool :=
  video.isUnavailable || video.title == "Deleted video" || video.title == "Private video"

/-- The lookup map built at the top of `mergeVideos`
(`existingVideosMap[v.videoId] = v` in a loop): the map holds, for each id,
the last record of `existingVideos` carrying that id. -/
def buildMap (existingVideos : List Video) (id : String) : Option Video :=
  existingVideos.foldl (fun acc v => if v.videoId == id then some v else acc) none

/-- The body of the `newVideos.map` callback in `mergeVideos`
(`src/lib/sync-utils.js`, lines 26-51).  The two guarded branches mirror the
two `if` statements; `existing?.originalTitle` is a JavaScript truthiness
test, hence `strTruthy`. -/
def mergeOne (existingVideos : List Video) (v : Video) : Video :=
  let isUnavail := isVideoUnavailable v
  match buildMap existingVideos v.videoId with
  | some existing =>
    if isUnavail && !(isVideoUnavailable existing) then
      { v with
        originalTitle := some existing.title
        originalChannelTitle := some existing.channelTitle
        originalThumbnailUrl := some existing.thumbnailUrl }
    else if isUnavail && strTruthy existing.originalTitle then
      { v with
        originalTitle := existing.originalTitle
        originalChannelTitle := existing.originalChannelTitle
        originalThumbnailUrl := existing.originalThumbnailUrl }
    else v
  | none => v

/-- `mergeVideos` from `src/lib/sync-utils.js`: build the lookup map from
`existingVideos`, then map every fresh record through the reconciliation
callback. -/
def mergeVideos (existingVideos newVideos : List Video) : List Video :=
  newVideos.map (mergeOne existingVideos)

/-- `countUnavailable` from `src/lib/sync-utils.js`. -/
def countUnavailable (videos : List Video) : Nat :=
  (videos.filter isVideoUnavailable).length

/-- A record is fresh (straight from `fetchAllPlaylistItems`) iff it carries
none of the preserved-original keys: the fetch layer never sets them. -/
def freshRecord (v : Video) : Bool :=
  v.originalTitle == none && v.originalChannelTitle == none && v.originalThumbnailUrl == none

-- Helper lemmas about the embedding.

theorem mergeOne_videoId (P : List Video) (v : Video) :
    (mergeOne P v).videoId = v.videoId := by
  unfold mergeOne
  cases h : buildMap P v.videoId with
  | none => rfl
  | some e =>
    by_cases h1 : (isVideoUnavailable v && !(isVideoUnavailable e)) = true
    · simp [h1]
    · by_cases h2 : (isVideoUnavailable v && strTruthy e.originalTitle) = true
      · simp [h1, h2]
      · simp [h1, h2]

theorem mergeVideos_length (P F : List Video) :
    (mergeVideos P F).length = F.length := by
  simp [mergeVideos]

theorem mergeVideos_map_videoId (P F : List Video) :
    (mergeVideos P F).map Video.videoId = F.map Video.videoId := by
  simp only [mergeVideos, List.map_map]
  exact List.map_congr_left (fun v _ => mergeOne_videoId P v)

theorem getElemOpt_map {α β : Type} (f : α → β) (l : List α) (i : Nat) :
    (l.map f)[i]? = (l[i]?).map f := by
  induction l generalizing i with
  | nil => simp
  | cons a t ih =>
    cases i with
    | zero => simp
    | succ j => simp only [List.map_cons, List.getElem?_cons_succ]; exact ih j

theorem mem_of_getElemOpt {α : Type} {l : List α} {i : Nat} {a : α}
    (h : l[i]? = some a) : a ∈ l := by
  induction l generalizing i with
  | nil => simp at h
  | cons b t ih =>
    cases i with
    | zero => simp_all
    | succ j =>
      simp only [List.getElem?_cons_succ] at h
      exact List.mem_cons_of_mem b (ih h)

-- Behaviour of the `buildMap` fold, established by generalising over the
-- accumulator of the fold.

theorem buildMap_loop_no_match (L : List Video) (id : String) :
    ∀ acc : Option Video, (∀ v ∈ L, (v.videoId == id) = false) →
      L.foldl (fun acc v => if v.videoId == id then some v else acc) acc = acc := by
  induction L with
  | nil => intro acc _; rfl
  | cons hd tl ih =>
    intro acc h
    have ha := h hd (List.mem_cons_self hd tl)
    rw [List.foldl_cons, if_neg (by simp [ha])]
    exact ih acc (fun v hv => h v (List.mem_cons_of_mem hd hv))

theorem buildMap_loop_mem (L : List Video) (id : String) (e : Video) :
    ∀ acc : Option Video,
      L.foldl (fun acc v => if v.videoId == id then some v else acc) acc = some e →
      (e ∈ L ∧ e.videoId = id) ∨ acc = some e := by
  induction L with
  | nil => intro acc h; exact Or.inr h
  | cons hd tl ih =>
    intro acc h
    rw [List.foldl_cons] at h
    rcases ih _ h with ⟨he, hid⟩ | hacc
    · exact Or.inl ⟨List.mem_cons_of_mem hd he, hid⟩
    · by_cases hm : (hd.videoId == id) = true
      · rw [if_pos hm] at hacc
        obtain rfl := Option.some.inj hacc
        exact Or.inl ⟨List.mem_cons_self _ _, by simpa using hm⟩
      · rw [if_neg hm] at hacc
        exact Or.inr hacc

theorem buildMap_loop_unique (L : List Video) (id : String) (x : Video)
    (hid : x.videoId = id) :
    ∀ acc : Option Video, x ∈ L → (∀ y ∈ L, y.videoId = id → y = x) →
      L.foldl (fun acc v => if v.videoId == id then some v else acc) acc = some x := by
  induction L with
  | nil => intro acc hx _; simp at hx
  | cons hd tl ih =>
    intro acc hx huniq
    rw [List.foldl_cons]
    by_cases hxt : x ∈ tl
    · exact ih _ hxt (fun y hy => huniq y (List.mem_cons_of_mem hd hy))
    · have hxa : x = hd := by
        rcases List.mem_cons.mp hx with h | h
        · exact h
        · exact absurd h hxt
      subst hxa
      rw [if_pos (by simpa using hid)]
      apply buildMap_loop_no_match
      intro v hv
      by_cases hvid : v.videoId = id
      · exact absurd (huniq v (List.mem_cons_of_mem x hv) hvid) (by
          intro hvx; exact hxt (hvx ▸ hv))
      · simpa using hvid

theorem buildMap_mem {L : List Video} {id : String} {e : Video}
    (h : buildMap L id = some e) : e ∈ L ∧ e.videoId = id := by
  rcases buildMap_loop_mem L id e none h with h1 | h2
  · exact h1
  · simp at h2

theorem buildMap_of_unique {L : List Video} {id : String} {x : Video}
    (hx : x ∈ L) (hid : x.videoId = id)
    (huniq : ∀ y ∈ L, y.videoId = id → y = x) :
    buildMap L id = some x :=
  buildMap_loop_unique L id x hid none hx huniq

-- Branch lemmas for `mergeOne`, one per row of the reconciliation decision.

theorem isVideoUnavailable_update (v : Video) (a b c : Option String) :
    isVideoUnavailable
      { v with originalTitle := a, originalChannelTitle := b, originalThumbnailUrl := c }
      = isVideoUnavailable v := rfl

theorem mergeOne_of_available (P : List Video) (v : Video)
    (h : isVideoUnavailable v = false) : mergeOne P v = v := by
  unfold mergeOne
  cases hb : buildMap P v.videoId with
  | none => rfl
  | some e => simp [h]

theorem mergeOne_of_none (P : List Video) (v : Video)
    (hb : buildMap P v.videoId = none) : mergeOne P v = v := by
  unfold mergeOne
  rw [hb]

theorem mergeOne_of_branch1 (P : List Video) (v e : Video)
    (hb : buildMap P v.videoId = some e)
    (hu : isVideoUnavailable v = true)
    (ha : isVideoUnavailable e = false) :
    mergeOne P v = { v with
      originalTitle := some e.title
      originalChannelTitle := some e.channelTitle
      originalThumbnailUrl := some e.thumbnailUrl } := by
  unfold mergeOne
  rw [hb]
  simp [hu, ha]

theorem mergeOne_of_branch2 (P : List Video) (v e : Video)
    (hb : buildMap P v.videoId = some e)
    (hu : isVideoUnavailable v = true)
    (he : isVideoUnavailable e = true)
    (ht : strTruthy e.originalTitle = true) :
    mergeOne P v = { v with
      originalTitle := e.originalTitle
      originalChannelTitle := e.originalChannelTitle
      originalThumbnailUrl := e.originalThumbnailUrl } := by
  unfold mergeOne
  rw [hb]
  simp [hu, he, ht]

theorem mergeOne_of_branch3 (P : List Video) (v e : Video)
    (hb : buildMap P v.videoId = some e)
    (hu : isVideoUnavailable v = true)
    (he : isVideoUnavailable e = true)
    (ht : strTruthy e.originalTitle = false) :
    mergeOne P v = v := by
  unfold mergeOne
  rw [hb]
  simp [hu, he, ht]

-- Concrete records used in counterexamples and witnesses.

/-- An available record whose metadata is worth preserving. -/
def vCat : Video :=
  { videoId := "cat", title := "Cat Video", channelTitle := "X", thumbnailUrl := "https://t/1" }

/-- The same id coming back from the API as a deleted video. -/
def vCatDeleted : Video := { videoId := "cat", title := "Deleted video" }

/-- An available record with an empty title (legitimately sparse metadata):
available because neither sentinel title matches and `isUnavailable` is
false. -/
def vEmptyTitle : Video :=
  { videoId := "a", title := "", channelTitle := "X", thumbnailUrl := "t" }

/-- Id `a` fetched as a deleted video. -/
def vDeletedA : Video := { videoId := "a", title := "Deleted video" }

/-- Id `a` fetched as available. -/
def vAvailA : Video :=
  { videoId := "a", title := "Video A", channelTitle := "C", thumbnailUrl := "t2" }

/-- Claim C3: the merge output has exactly the length of the fresh list, the
i-th output record carries the i-th fresh id (output ids are pointwise the
fresh ids), and no id outside the fresh list appears in the output. -/
theorem mergeVideos_membership_order (P F : List Video) :
    (mergeVideos P F).length = F.length
    ∧ (mergeVideos P F).map Video.videoId = F.map Video.videoId
    ∧ ∀ id : String, id ∉ F.map Video.videoId → ∀ r ∈ mergeVideos P F, r.videoId ≠ id := by
  refine ⟨mergeVideos_length P F, mergeVideos_map_videoId P F, ?_⟩
  intro id hid r hr hrid
  apply hid
  rw [← mergeVideos_map_videoId P F]
  exact hrid ▸ List.mem_map_of_mem Video.videoId hr

theorem mergeVideos_membership_order_witness :
    (mergeVideos [vCat] [vCatDeleted]).length = [vCatDeleted].length
    ∧ (mergeVideos [vCat] [vCatDeleted]).map Video.videoId = [vCatDeleted].map Video.videoId
    ∧ ∀ r ∈ mergeVideos [vCat] [vCatDeleted], r.videoId ≠ "zzz" :=
  ⟨(mergeVideos_membership_order [vCat] [vCatDeleted]).1,
   (mergeVideos_membership_order [vCat] [vCatDeleted]).2.1,
   (mergeVideos_membership_order [vCat] [vCatDeleted]).2.2 "zzz" (by decide)⟩

/-- Claim C4: an item unavailable in the fresh list whose prior record (the
one the lookup map yields) was available is emitted as the fresh record plus
the prior record's `title`, `channelTitle` and `thumbnailUrl` copied into
`originalTitle`, `originalChannelTitle` and `originalThumbnailUrl` (the
spec's `channelName` fields are the source's `channelTitle` fields); in
particular `originalTitle` equals the prior `title`. -/
theorem mergeVideos_became_unavailable (P F : List Video) (i : Nat) (v e : Video)
    (hv : F[i]? = some v)
    (he : buildMap P v.videoId = some e)
    (hu : isVideoUnavailable v = true)
    (ha : isVideoUnavailable e = false) :
    (mergeVideos P F)[i]? = some { v with
        originalTitle := some e.title
        originalChannelTitle := some e.channelTitle
        originalThumbnailUrl := some e.thumbnailUrl }
    ∧ ((mergeVideos P F)[i]?).map Video.originalTitle = some (some e.title) := by
  have h1 : (mergeVideos P F)[i]? = some (mergeOne P v) := by
    rw [mergeVideos, getElemOpt_map, hv]
    rfl
  rw [h1, mergeOne_of_branch1 P v e he hu ha]
  exact ⟨rfl, rfl⟩

theorem mergeVideos_became_unavailable_witness :
    (mergeVideos [vCat] [vCatDeleted])[0]? = some { vCatDeleted with
        originalTitle := some vCat.title
        originalChannelTitle := some vCat.channelTitle
        originalThumbnailUrl := some vCat.thumbnailUrl }
    ∧ ((mergeVideos [vCat] [vCatDeleted])[0]?).map Video.originalTitle
        = some (some vCat.title) :=
  mergeVideos_became_unavailable [vCat] [vCatDeleted] 0 vCatDeleted vCat
    (by decide) (by decide) (by decide) (by decide)

/-- Any record of a merge of fresh inputs that carries a truthy
`originalTitle` is unavailable: the two preserving branches only fire for
unavailable fresh records and leave the availability signals untouched,
and the pass-through branch emits a fresh record, which carries no
preserved-original keys. -/
theorem merged_truthy_original_unavailable (P F : List Video)
    (hF : ∀ v ∈ F, freshRecord v = true) :
    ∀ r ∈ mergeVideos P F, strTruthy r.originalTitle = true →
      isVideoUnavailable r = true := by
  intro r hr ht
  rcases List.mem_map.mp hr with ⟨v, hvF, rfl⟩
  have hfresh := hF v hvF
  simp only [freshRecord, Bool.and_eq_true, beq_iff_eq] at hfresh
  by_cases hu : isVideoUnavailable v = true
  · cases hb : buildMap P v.videoId with
    | none =>
      rw [mergeOne_of_none P v hb] at ht ⊢
      rw [hfresh.1.1] at ht
      simp [strTruthy] at ht
    | some ex =>
      by_cases hae : isVideoUnavailable ex = true
      · by_cases hte : strTruthy ex.originalTitle = true
        · rw [mergeOne_of_branch2 P v ex hb hu hae hte, isVideoUnavailable_update]
          exact hu
        · rw [mergeOne_of_branch3 P v ex hb hu hae (by simpa using hte)]
          exact hu
      · rw [mergeOne_of_branch1 P v ex hb hu (by simpa using hae), isVideoUnavailable_update]
        exact hu
  · have hu' : isVideoUnavailable v = false := by simpa using hu
    rw [mergeOne_of_available P v hu'] at ht
    rw [hfresh.1.1] at ht
    simp [strTruthy] at ht

/-- Claim C1 counterexample: previous list holds an available record with an
empty title; after the item is deleted, the first merge sets all three
preserved-original fields (`originalTitle` is set — to the empty string);
the item is still unavailable in the next fresh snapshot, yet the next
merge drops all preserved-original fields, because
`existing?.originalTitle` is a JavaScript truthiness test and `""` is
falsy. -/
theorem mergeVideos_preserved_fields_dropped :
    (mergeVideos [vEmptyTitle] [vDeletedA]).map
        (fun r => (r.originalTitle, r.originalChannelTitle, r.originalThumbnailUrl))
      = [(some "", some "X", some "t")]
    ∧ isVideoUnavailable vDeletedA = true
    ∧ (mergeVideos (mergeVideos [vEmptyTitle] [vDeletedA]) [vDeletedA]).map
        (fun r => (r.originalTitle, r.originalChannelTitle, r.originalThumbnailUrl))
      = [(none, none, none)] := by decide

/-- Claim C1 as amended: preserved-original fields whose `originalTitle` is
truthy (a non-empty string) persist through a further merge while the item
stays unavailable, and every `original*` field is absent as soon as the
item is available again (fresh records carry no `original*` keys). -/
theorem mergeVideos_preserved_fields_amended (P F F2 : List Video)
    (hF : ∀ v ∈ F, freshRecord v = true)
    (i : Nat) (v2 e : Video)
    (hv : F2[i]? = some v2)
    (hfresh2 : freshRecord v2 = true)
    (he : buildMap (mergeVideos P F) v2.videoId = some e)
    (hset : strTruthy e.originalTitle = true) :
    (isVideoUnavailable v2 = true →
      (mergeVideos (mergeVideos P F) F2)[i]? = some { v2 with
          originalTitle := e.originalTitle
          originalChannelTitle := e.originalChannelTitle
          originalThumbnailUrl := e.originalThumbnailUrl })
    ∧ (isVideoUnavailable v2 = false →
      (mergeVideos (mergeVideos P F) F2)[i]? = some v2
      ∧ v2.originalTitle = none ∧ v2.originalChannelTitle = none
      ∧ v2.originalThumbnailUrl = none) := by
  have hmemE : e ∈ mergeVideos P F := (buildMap_mem he).1
  have heu : isVideoUnavailable e = true :=
    merged_truthy_original_unavailable P F hF e hmemE hset
  have h1 : (mergeVideos (mergeVideos P F) F2)[i]?
      = some (mergeOne (mergeVideos P F) v2) := by
    rw [mergeVideos, getElemOpt_map, hv]
    rfl
  constructor
  · intro hu2
    rw [h1, mergeOne_of_branch2 (mergeVideos P F) v2 e he hu2 heu hset]
  · intro hu2
    have hf := hfresh2
    simp only [freshRecord, Bool.and_eq_true, beq_iff_eq] at hf
    rw [h1, mergeOne_of_available (mergeVideos P F) v2 hu2]
    exact ⟨rfl, hf.1.1, hf.1.2, hf.2⟩

theorem mergeVideos_preserved_fields_amended_witness :
    (mergeVideos (mergeVideos [vCat] [vCatDeleted]) [vCatDeleted])[0]?
      = some { vCatDeleted with
          originalTitle := some "Cat Video"
          originalChannelTitle := some "X"
          originalThumbnailUrl := some "https://t/1" } :=
  (mergeVideos_preserved_fields_amended [vCat] [vCatDeleted] [vCatDeleted]
      (by decide) 0 vCatDeleted
      { vCatDeleted with
        originalTitle := some "Cat Video"
        originalChannelTitle := some "X"
        originalThumbnailUrl := some "https://t/1" }
      (by decide) (by decide) (by decide) (by decide)).1 (by decide)

/-- Claim C2 counterexample: merging an already-merged result against the
same fresh snapshot is not always a no-op.  First input: the preserved
`originalTitle` is the falsy empty string, so the repeat merge drops the
preservation.  Second input: the fresh list repeats an id (an unavailable
copy followed by an available one); the lookup map keeps the last record,
so the repeat merge invents preserved-original fields for the first copy. -/
theorem mergeVideos_not_idempotent :
    mergeVideos (mergeVideos [vEmptyTitle] [vDeletedA]) [vDeletedA]
      ≠ mergeVideos [vEmptyTitle] [vDeletedA]
    ∧ mergeVideos (mergeVideos [] [vDeletedA, vAvailA]) [vDeletedA, vAvailA]
      ≠ mergeVideos [] [vDeletedA, vAvailA] := by decide

/-- When an unavailable record looks itself up in the merged list, the
repeat merge returns it unchanged (structure eta: re-copying a record's own
fields is the identity). -/
theorem mergeOne_self_lookup (M : List Video) (v : Video)
    (hbM : buildMap M v.videoId = some v) (hu : isVideoUnavailable v = true) :
    mergeOne M v = v := by
  by_cases ht : strTruthy v.originalTitle = true
  · rw [mergeOne_of_branch2 M v v hbM hu hu ht]
  · rw [mergeOne_of_branch3 M v v hbM hu hu (by simpa using ht)]

/-- With distinct fresh ids, a record of the merged list is found in the
merged list's own lookup map. -/
theorem buildMap_merged_self (P F : List Video)
    (hnd : (F.map Video.videoId).Nodup) {v : Video} (hvF : v ∈ F) :
    buildMap (mergeVideos P F) v.videoId = some (mergeOne P v) := by
  apply buildMap_of_unique
  · exact List.mem_map_of_mem _ hvF
  · exact mergeOne_videoId P v
  · intro y hy hyid
    rcases List.mem_map.mp hy with ⟨w, hwF, rfl⟩
    have hwid : w.videoId = v.videoId := by
      rw [← mergeOne_videoId P w, hyid]
    have hwv : w = v := by
      have hinj := List.inj_on_of_nodup_map hnd
      exact hinj hwF hvF hwid
    rw [hwv]

/-- Claim C2 as amended: the merge is idempotent under an unchanged fresh
snapshot provided the fresh ids are pairwise distinct and every previous
record has a non-empty (truthy) title. -/
theorem mergeVideos_idempotent_amended (P F : List Video)
    (hnd : (F.map Video.videoId).Nodup)
    (hP : ∀ v ∈ P, v.title ≠ "") :
    mergeVideos (mergeVideos P F) F = mergeVideos P F := by
  have key : ∀ v ∈ F, mergeOne (mergeVideos P F) v = mergeOne P v := by
    intro v hvF
    have hbM := buildMap_merged_self P F hnd hvF
    by_cases hu : isVideoUnavailable v = true
    · cases hb : buildMap P v.videoId with
      | none =>
        rw [mergeOne_of_none P v hb] at hbM ⊢
        exact mergeOne_self_lookup _ v hbM hu
      | some ex =>
        by_cases hae : isVideoUnavailable ex = true
        · by_cases hte : strTruthy ex.originalTitle = true
          · have h1 := mergeOne_of_branch2 P v ex hb hu hae hte
            rw [h1] at hbM ⊢
            rw [mergeOne_of_branch2 (mergeVideos P F) v _ hbM hu
              (by rw [isVideoUnavailable_update]; exact hu) hte]
          · have h1 := mergeOne_of_branch3 P v ex hb hu hae (by simpa using hte)
            rw [h1] at hbM ⊢
            exact mergeOne_self_lookup _ v hbM hu
        · have hae' : isVideoUnavailable ex = false := by simpa using hae
          have h1 := mergeOne_of_branch1 P v ex hb hu hae'
          have hne : ex.title ≠ "" := hP ex (buildMap_mem hb).1
          rw [h1] at hbM ⊢
          rw [mergeOne_of_branch2 (mergeVideos P F) v _ hbM hu
            (by rw [isVideoUnavailable_update]; exact hu)
            (by simp [strTruthy, hne])]
    · have hu' : isVideoUnavailable v = false := by simpa using hu
      rw [mergeOne_of_available _ v hu', mergeOne_of_available P v hu']
  show F.map (mergeOne (mergeVideos P F)) = F.map (mergeOne P)
  exact List.map_congr_left key

theorem mergeVideos_idempotent_amended_witness :
    mergeVideos (mergeVideos [vCat] [vCatDeleted]) [vCatDeleted]
      = mergeVideos [vCat] [vCatDeleted] :=
  mergeVideos_idempotent_amended [vCat] [vCatDeleted] (by decide) (by decide)

/-!
Token manager (`src/lib/youtube-api.js`, authorization-code/PKCE variant).
`chrome.storage.local` holding `accessToken`, `refreshToken`, `tokenExpiry`
is a `TokenState`; absent keys are `none`.  Times are JavaScript
millisecond instants (`Int`).  Network responses are parameters.
-/

/-- The stored credential: the three keys read by `getStoredTokens`. -/
structure TokenState where
  accessToken : Option String := none
  refreshToken : Option String := none
  tokenExpiry : Option Int := none
deriving DecidableEq, Repr

/-- A decoded JSON body of a token-endpoint response. -/
structure RefreshResponse where
  access_token : String
  refresh_token : Option String := none
  expires_in : Option Int := none
deriving DecidableEq, Repr

/-- `storeTokens` (`src/lib/youtube-api.js`, lines 304-313):
`data = { accessToken }`, `refreshToken` added only when truthy,
`tokenExpiry = Date.now() + expiresIn * 1000 - 60000` added only when
`expiresIn` is truthy; `chrome.storage.local.set(data)` merges keys, so an
omitted key keeps its stored value. -/
def storeTokens (st : TokenState) (accessToken : String)
    (refreshToken : Option String) (expiresIn : Option Int) (now : Int) :
    TokenState :=
  { accessToken := some accessToken
    refreshToken := if strTruthy refreshToken then refreshToken else st.refreshToken
    tokenExpiry :=
      if intTruthy expiresIn then some (now + expiresIn.getD 0 * 1000 - 60000)
      else st.tokenExpiry }

/-- The cached-token check opening `getAuthToken`:
`stored.accessToken && stored.tokenExpiry && Date.now() < stored.tokenExpiry`. -/
def cachedTokenUsable (st : TokenState) (now : Int) : Bool :=
  strTruthy st.accessToken && intTruthy st.tokenExpiry
    && decide (now < st.tokenExpiry.getD 0)

/-- `refreshAccessToken` (`src/lib/youtube-api.js`, lines 325-344): a
non-ok response throws before anything is stored; an ok response stores
the new access token with `null` for the refresh token (the response's
`refresh_token`, if any, is never read) and returns it. -/
def refreshAccessToken (st : TokenState) (resp : Option RefreshResponse)
    (now : Int) : Except String (String × TokenState) :=
  match resp with
  | none => .error "Failed to refresh token"
  | some tokens =>
    .ok (tokens.access_token, storeTokens st tokens.access_token none tokens.expires_in now)

/-- `getAuthToken` (`src/lib/youtube-api.js`, lines 349-371 for the
non-interactive chain): cached check, then refresh attempt when a refresh
token is stored, then failure (non-interactive) or the interactive PKCE
flow, abstracted as `iflow` since it leaves the embedding (network +
randomness).  Returns the produced token or the thrown error message,
paired with the resulting stored state. -/
def getAuthToken (interactive : Bool) (st : TokenState) (now : Int)
    (refreshResp : Option RefreshResponse)
    (iflow : TokenState → Except String String × TokenState) :
    Except String String × TokenState :=
  if cachedTokenUsable st now then (.ok (st.accessToken.getD ""), st)
  else if strTruthy st.refreshToken then
    match refreshAccessToken st refreshResp now with
    | .ok (tok, st2) => (.ok tok, st2)
    | .error _ =>
      if interactive then iflow st
      else (.error "Token expired and refresh failed", st)
  else if interactive then iflow st
  else (.error "No valid token", st)

/-- Claim C5: storing a token with a positive declared lifetime persists the
expiry instant `now + expiresIn*1000 - 60000` (the fixed 60-second margin is
applied at storage time), and from the moment 60 seconds before true expiry
(`now + expiresIn*1000`) onwards the cached-token check rejects the stored
token. -/
theorem storeTokens_expiry_margin (st : TokenState) (tok : String)
    (rt : Option String) (expiresIn : Int) (now later : Int)
    (hpos : 0 < expiresIn)
    (hlate : now + expiresIn * 1000 - 60000 ≤ later) :
    (storeTokens st tok rt (some expiresIn) now).tokenExpiry
      = some (now + expiresIn * 1000 - 60000)
    ∧ cachedTokenUsable (storeTokens st tok rt (some expiresIn) now) later = false := by
  have htr : intTruthy (some expiresIn) = true := by
    simp [intTruthy]
    omega
  constructor
  · simp [storeTokens, htr]
  · simp [cachedTokenUsable, storeTokens, htr]
    intro _ _
    omega

theorem storeTokens_expiry_margin_witness :
    (storeTokens {} "tok" none (some 3600) 1000000).tokenExpiry
      = some (1000000 + 3600 * 1000 - 60000)
    ∧ cachedTokenUsable (storeTokens {} "tok" none (some 3600) 1000000) 4540000
      = false :=
  storeTokens_expiry_margin {} "tok" none 3600 1000000 4540000
    (by decide) (by decide)

/-- Claim C6: a non-interactive `getAuthToken` with no usable cached access
token and no stored refresh token fails with the no-valid-token error and
leaves the stored credential untouched; this covers both an entirely empty
credential store and an expired access token without refresh token. -/
theorem getAuthToken_no_valid_token (st : TokenState) (now : Int)
    (refreshResp : Option RefreshResponse)
    (iflow : TokenState → Except String String × TokenState)
    (hcache : cachedTokenUsable st now = false)
    (hnoref : strTruthy st.refreshToken = false) :
    getAuthToken false st now refreshResp iflow = (.error "No valid token", st) := by
  simp [getAuthToken, hcache, hnoref]

theorem getAuthToken_no_valid_token_witness :
    getAuthToken false {} 1000000 none (fun s => (.error "", s))
      = (.error "No valid token", {})
    ∧ getAuthToken false { accessToken := some "expired", tokenExpiry := some 500 }
        1000000 none (fun s => (.error "", s))
      = (.error "No valid token",
         { accessToken := some "expired", tokenExpiry := some 500 }) :=
  ⟨getAuthToken_no_valid_token {} 1000000 none (fun s => (.error "", s))
      (by decide) (by decide),
   getAuthToken_no_valid_token { accessToken := some "expired", tokenExpiry := some 500 }
      1000000 none (fun s => (.error "", s)) (by decide) (by decide)⟩

theorem strTruthy_none : strTruthy none = false := rfl

/-- Claim C7 counterexample: the refresh exchange succeeds and the server
rotates the refresh token (`refresh_token = "r_new"` in the response), but
`refreshAccessToken` passes `null` to `storeTokens` without ever reading
the response's `refresh_token`, so the stored refresh token stays
`"r_old"` instead of being replaced. -/
theorem getAuthToken_rotation_ignored :
    getAuthToken false
      { accessToken := some "old", refreshToken := some "r_old", tokenExpiry := some 1000 }
      5000000
      (some { access_token := "new", refresh_token := some "r_new", expires_in := some 3600 })
      (fun s => (.error "", s))
    = (.ok "new",
       { accessToken := some "new", refreshToken := some "r_old",
         tokenExpiry := some (5000000 + 3600 * 1000 - 60000) })
    ∧ (some "r_old" : Option String) ≠ some "r_new" := ⟨rfl, by decide⟩

/-- Claim C7 as amended: with an unusable cached token and a stored refresh
token, a successful refresh exchange returns the server's new access token
and persists it with the 60-second expiry margin (when the response carries
a truthy `expires_in`), and the stored refresh token is always preserved
unchanged — a server-rotated refresh token in the response is discarded,
never persisted. -/
theorem getAuthToken_refresh_success (st : TokenState) (now : Int)
    (tokens : RefreshResponse)
    (iflow : TokenState → Except String String × TokenState)
    (hcache : cachedTokenUsable st now = false)
    (href : strTruthy st.refreshToken = true) :
    getAuthToken false st now (some tokens) iflow
      = (.ok tokens.access_token,
         { accessToken := some tokens.access_token
           refreshToken := st.refreshToken
           tokenExpiry :=
             if intTruthy tokens.expires_in
             then some (now + tokens.expires_in.getD 0 * 1000 - 60000)
             else st.tokenExpiry }) := by
  simp [getAuthToken, hcache, href, refreshAccessToken, storeTokens, strTruthy_none]

theorem getAuthToken_refresh_success_witness :
    getAuthToken false
      { accessToken := some "old", refreshToken := some "r1", tokenExpiry := some 1000 }
      5000000
      (some { access_token := "new", expires_in := some 3600 })
      (fun s => (.error "", s))
    = (.ok "new",
       { accessToken := some "new", refreshToken := some "r1",
         tokenExpiry := some (5000000 + 3600 * 1000 - 60000) }) := by
  have h := getAuthToken_refresh_success
    { accessToken := some "old", refreshToken := some "r1", tokenExpiry := some 1000 }
    5000000 { access_token := "new", expires_in := some 3600 }
    (fun s => (.error "", s)) (by decide) (by decide)
  rw [h]
  rfl

/-!
Sync orchestrator (`src/background/service-worker.js`) and persisted store
(`src/lib/storage.js`).  Collaborator calls (network fetches, badge
update, the per-playlist sync) enter the embedding as `Except`-valued
outcomes; a thrown exception is `Except.error`.
-/

/-- The value returned by `syncPlaylist` on success. -/
structure SyncResult where
  unavailableCount : Nat
  videoCount : Nat
deriving DecidableEq, Repr

/-- One entry of `results.errors` in `syncAllPlaylists`: the per-playlist
catch pushes `{ playlistId, error }`; the outer catch pushes `{ error }`
only. -/
structure SyncErrorEntry where
  playlistId : Option String
  error : String
deriving DecidableEq, Repr

/-- The aggregate `results` object of `syncAllPlaylists`. -/
structure SyncAllResults where
  synced : Nat
  unavailable : Nat
  errors : List SyncErrorEntry
deriving DecidableEq, Repr

/-- One iteration of the `for (const playlist of monitoredPlaylists)` loop
in `syncAllPlaylists` (lines 80-91): a successful sync bumps the counters,
a failure appends an error entry keyed by the playlist id. -/
def syncStep (syncOutcome : String → Except String SyncResult)
    (acc : SyncAllResults) (pid : String) : SyncAllResults :=
  match syncOutcome pid with
  | .ok r =>
    { acc with synced := acc.synced + 1, unavailable := acc.unavailable + r.unavailableCount }
  | .error e =>
    { acc with errors := acc.errors ++ [{ playlistId := some pid, error := e }] }

/-- `syncAllPlaylists` (`src/background/service-worker.js`, lines 64-99):
return zeros when not authenticated, loop over the monitored playlist ids
otherwise; the outer catch turns a failure of `getMonitoredPlaylists` or
of the final `updateBadge` into an un-keyed error entry on the results
accumulated so far. -/
def syncAllPlaylists (isAuth : Bool) (monitoredR : Except String (List String))
    (syncOutcome : String → Except String SyncResult)
    (badgeR : Except String Unit) : SyncAllResults :=
  let init : SyncAllResults := { synced := 0, unavailable := 0, errors := [] }
  if !isAuth then init
  else
    match monitoredR with
    | .error e => { init with errors := [{ playlistId := none, error := e }] }
    | .ok pids =>
      let res := pids.foldl (syncStep syncOutcome) init
      match badgeR with
      | .ok _ => res
      | .error e => { res with errors := res.errors ++ [{ playlistId := none, error := e }] }

theorem syncLoop_synced (sy : String → Except String SyncResult) :
    ∀ (pids : List String) (acc : SyncAllResults),
      (pids.foldl (syncStep sy) acc).synced
        = acc.synced + (pids.filter (fun p => (sy p).isOk)).length := by
  intro pids
  induction pids with
  | nil => intro acc; rfl
  | cons hd tl ih =>
    intro acc
    rw [List.foldl_cons, ih]
    cases h : sy hd with
    | ok r => simp [syncStep, h, List.filter_cons, Except.isOk, Except.toBool]; omega
    | error e => simp [syncStep, h, List.filter_cons, Except.isOk, Except.toBool]

theorem syncLoop_unavailable (sy : String → Except String SyncResult) :
    ∀ (pids : List String) (acc : SyncAllResults),
      (pids.foldl (syncStep sy) acc).unavailable
        = acc.unavailable
          + (((pids.filterMap (fun p => (sy p).toOption)).map SyncResult.unavailableCount).sum) := by
  intro pids
  induction pids with
  | nil => intro acc; rfl
  | cons hd tl ih =>
    intro acc
    rw [List.foldl_cons, ih]
    cases h : sy hd with
    | ok r => simp [syncStep, h, List.filterMap_cons, Except.toOption]; omega
    | error e => simp [syncStep, h, List.filterMap_cons, Except.toOption]

theorem syncLoop_errors (sy : String → Except String SyncResult) :
    ∀ (pids : List String) (acc : SyncAllResults),
      (pids.foldl (syncStep sy) acc).errors
        = acc.errors ++ pids.filterMap (fun p =>
            match sy p with
            | .error e => some { playlistId := some p, error := e }
            | .ok _ => none) := by
  intro pids
  induction pids with
  | nil => intro acc; simp
  | cons hd tl ih =>
    intro acc
    rw [List.foldl_cons, ih]
    cases h : sy hd with
    | ok r => simp [syncStep, h, List.filterMap_cons]
    | error e => simp [syncStep, h, List.filterMap_cons]

/-- Claim C9: an authenticated bulk cycle whose monitored-list read and
badge update succeed records, for every monitored playlist in order, either
a success (counted in `synced`, its unavailable count added to
`unavailable`) or an error entry keyed by that playlist's id; one
playlist's failure never drops the remaining playlists from the cycle. -/
theorem syncAllPlaylists_partial_failure
    (sy : String → Except String SyncResult) (pids : List String) :
    (syncAllPlaylists true (.ok pids) sy (.ok ())).synced
      = (pids.filter (fun p => (sy p).isOk)).length
    ∧ (syncAllPlaylists true (.ok pids) sy (.ok ())).unavailable
      = (((pids.filterMap (fun p => (sy p).toOption)).map SyncResult.unavailableCount).sum)
    ∧ (syncAllPlaylists true (.ok pids) sy (.ok ())).errors
      = pids.filterMap (fun p =>
          match sy p with
          | .error e => some { playlistId := some p, error := e }
          | .ok _ => none) := by
  refine ⟨?_, ?_, ?_⟩
  · rw [show syncAllPlaylists true (.ok pids) sy (.ok ())
        = pids.foldl (syncStep sy) { synced := 0, unavailable := 0, errors := [] } from rfl]
    rw [syncLoop_synced]
    simp
  · rw [show syncAllPlaylists true (.ok pids) sy (.ok ())
        = pids.foldl (syncStep sy) { synced := 0, unavailable := 0, errors := [] } from rfl]
    rw [syncLoop_unavailable]
    simp
  · rw [show syncAllPlaylists true (.ok pids) sy (.ok ())
        = pids.foldl (syncStep sy) { synced := 0, unavailable := 0, errors := [] } from rfl]
    rw [syncLoop_errors]
    simp

/-- A stored playlist record (`storage.js` keeps them in an object keyed by
`playlistId`). -/
structure Playlist where
  playlistId : String
  title : String := ""
  description : String := ""
  thumbnailUrl : String := ""
  itemCount : Nat := 0
  publishedAt : String := ""
  monitored : Bool := false
  videos : List Video := []
  lastSyncedAt : Option Int := none
deriving DecidableEq, Repr

/-- The object returned by `fetchPlaylistMetadata`. -/
structure PlaylistMetadata where
  playlistId : String
  title : String := ""
  description : String := ""
  thumbnailUrl : String := ""
  itemCount : Nat := 0
  publishedAt : String := ""
deriving DecidableEq, Repr

/-- The persisted `playlists` object: an ordered association list. -/
abbrev Store := List (String × Playlist)

/-- JavaScript property read `playlists[playlistId] || null`
(`storage.js` `getPlaylist`). -/
def lookupKey (m : Store) (k : String) : Option Playlist :=
  (m.find? (fun kv => kv.1 == k)).map (fun kv => kv.2)

/-- JavaScript property write `playlists[playlist.playlistId] = playlist`
followed by `chrome.storage.local.set({ playlists })`
(`storage.js` `savePlaylist`, lines 63-67): an existing key is updated in
place, a new key is appended. -/
def setKey (m : Store) (k : String) (p : Playlist) : Store :=
  if m.any (fun kv => kv.1 == k) then
    m.map (fun kv => if kv.1 == k then (k, p) else kv)
  else m ++ [(k, p)]

/-- The outcome of one `syncPlaylist` run: its return value or thrown
error, the resulting persisted store, and the sequence of `savePlaylist`
writes it performed. -/
structure SyncPlaylistOutcome where
  result : Except String SyncResult
  store : Store
  writes : List (String × Playlist)
deriving Repr

/-- `syncPlaylist` (`src/background/service-worker.js`, lines 106-141):
read the stored record, fetch metadata, fetch the fresh items (either
fetch may throw, aborting before any write), build the updated record —
metadata spread over the stored record, or a new monitored record — merge
the videos, stamp `lastSyncedAt`, and persist through `savePlaylist`. -/
def syncPlaylist (store : Store) (pid : String)
    (metadataR : Except String PlaylistMetadata)
    (itemsR : Except String (List Video)) (now : Int) : SyncPlaylistOutcome :=
  match metadataR with
  | .error e => { result := .error e, store := store, writes := [] }
  | .ok md =>
    match itemsR with
    | .error e => { result := .error e, store := store, writes := [] }
    | .ok newVideos =>
      let base : Playlist :=
        match lookupKey store pid with
        | none =>
          { playlistId := md.playlistId
            title := md.title
            description := md.description
            thumbnailUrl := md.thumbnailUrl
            itemCount := md.itemCount
            publishedAt := md.publishedAt
            monitored := true
            videos := []
            lastSyncedAt := none }
        | some p =>
          { p with
            playlistId := md.playlistId
            title := md.title
            description := md.description
            thumbnailUrl := md.thumbnailUrl
            itemCount := md.itemCount
            publishedAt := md.publishedAt }
      let merged := mergeVideos base.videos newVideos
      let pl2 : Playlist := { base with videos := merged, lastSyncedAt := some now }
      { result := .ok { unavailableCount := countUnavailable merged, videoCount := merged.length }
        store := setKey store pl2.playlistId pl2
        writes := [(pl2.playlistId, pl2)] }

/-- Claim C10: a single-playlist sync is atomic with respect to the
persisted store — when it fails (metadata fetch or item fetch throws; the
merge is a total function and cannot fail) it performs no write and leaves
the store exactly as it was, and when it succeeds it performs exactly one
`savePlaylist` write, of the fully merged record. -/
theorem syncPlaylist_atomic (store : Store) (pid : String)
    (metadataR : Except String PlaylistMetadata)
    (itemsR : Except String (List Video)) (now : Int) :
    ((syncPlaylist store pid metadataR itemsR now).result.isOk = false →
      (syncPlaylist store pid metadataR itemsR now).store = store
      ∧ (syncPlaylist store pid metadataR itemsR now).writes = [])
    ∧ ((syncPlaylist store pid metadataR itemsR now).result.isOk = true →
      ∃ p : Playlist, (syncPlaylist store pid metadataR itemsR now).writes = [(p.playlistId, p)]
        ∧ (syncPlaylist store pid metadataR itemsR now).store = setKey store p.playlistId p) := by
  cases metadataR with
  | error e => exact ⟨fun _ => ⟨rfl, rfl⟩, fun h => by simp [syncPlaylist, Except.isOk, Except.toBool] at h⟩
  | ok md =>
    cases itemsR with
    | error e => exact ⟨fun _ => ⟨rfl, rfl⟩, fun h => by simp [syncPlaylist, Except.isOk, Except.toBool] at h⟩
    | ok newVideos =>
      constructor
      · intro h
        simp [syncPlaylist, Except.isOk, Except.toBool] at h
      · intro _
        cases hl : lookupKey store pid with
        | none =>
          refine ⟨{ playlistId := md.playlistId
                    title := md.title
                    description := md.description
                    thumbnailUrl := md.thumbnailUrl
                    itemCount := md.itemCount
                    publishedAt := md.publishedAt
                    monitored := true
                    videos := mergeVideos [] newVideos
                    lastSyncedAt := some now }, ?_, ?_⟩ <;>
            simp [syncPlaylist, hl]
        | some p =>
          refine ⟨{ p with
                    playlistId := md.playlistId
                    title := md.title
                    description := md.description
                    thumbnailUrl := md.thumbnailUrl
                    itemCount := md.itemCount
                    publishedAt := md.publishedAt
                    videos := mergeVideos p.videos newVideos
                    lastSyncedAt := some now }, ?_, ?_⟩ <;>
            simp [syncPlaylist, hl]

theorem syncPlaylist_atomic_witness :
    ((syncPlaylist [] "PL1" (.error "API request failed: 500") (.ok []) 0).store = ([] : Store)
      ∧ (syncPlaylist [] "PL1" (.error "API request failed: 500") (.ok []) 0).writes = [])
    ∧ ∃ p : Playlist,
        (syncPlaylist [] "PL1"
            (.ok { playlistId := "PL1", title := "T" }) (.ok [vCatDeleted]) 7).writes
          = [(p.playlistId, p)]
        ∧ (syncPlaylist [] "PL1"
            (.ok { playlistId := "PL1", title := "T" }) (.ok [vCatDeleted]) 7).store
          = setKey [] p.playlistId p :=
  ⟨(syncPlaylist_atomic [] "PL1" (.error "API request failed: 500") (.ok []) 0).1 (by rfl),
   (syncPlaylist_atomic [] "PL1"
      (.ok { playlistId := "PL1", title := "T" }) (.ok [vCatDeleted]) 7).2 (by rfl)⟩

/-!
Message boundary (`src/background/service-worker.js`, `handleMessage`,
lines 209-315).  Each verb's collaborator calls are parameters
(`HandlerOps`); the response object is `HandlerResponse`, whose optional
fields model keys the handler may omit; `payloadFields` records the names
of the spread payload keys.  A case without its own `try`/`catch` lets a
collaborator failure escape as `Except.error`.
-/

/-- The `message.action` verbs, with the message fields the `toggleMonitor`
case reads. -/
inductive MsgAction where
  | getAuthStatus
  | signIn
  | signOut
  | fetchPlaylists
  | syncPlaylistMsg
  | syncAll
  | getStoredPlaylists
  | getMonitoredPlaylists
  | toggleMonitor (monitored : Bool) (hasPlaylistData : Bool)
  | getSettings
  | saveSettings
  | updateBadge
  | dismissBadge
  | otherAction
deriving DecidableEq, Repr

/-- A response object sent back to the popup. -/
structure HandlerResponse where
  success : Option Bool := none
  error : Option String := none
  authenticated : Option Bool := none
  payloadFields : List String := []
deriving DecidableEq, Repr

/-- Outcomes of the collaborator calls the handler awaits.
`isAuthenticatedR` is a plain `Bool` because `isAuthenticated` catches
internally and never throws; `syncAllR` is a plain result because
`syncAllPlaylists` catches internally and never throws. -/
structure HandlerOps where
  isAuthenticatedR : Bool := true
  signInR : Except String String := .ok "tok"
  signOutR : Except String Unit := .ok ()
  fetchPlaylistsR : Except String Unit := .ok ()
  syncPlaylistR : Except String SyncResult := .ok { unavailableCount := 0, videoCount := 0 }
  updateBadgeR : Except String Unit := .ok ()
  dismissBadgeR : Except String Unit := .ok ()
  getStoredPlaylistsR : Except String Unit := .ok ()
  getMonitoredPlaylistsR : Except String Unit := .ok ()
  getPlaylistR : Except String Bool := .ok true
  savePlaylistR : Except String Unit := .ok ()
  getSettingsR : Except String Unit := .ok ()
  saveSettingsR : Except String Unit := .ok ()
  setupSyncAlarmR : Except String Unit := .ok ()
deriving Repr

/-- `handleMessage`: the `switch` over `message.action`.  Cases wrapped in
`try`/`catch` translate a failure into `{ success: false, error }`; the
`getAuthStatus`, `signOut`, `updateBadge` and `dismissBadge` cases have no
`try`/`catch`. -/
def handleMessage (ops : HandlerOps) : MsgAction → Except String HandlerResponse
  | .getAuthStatus => .ok { authenticated := some ops.isAuthenticatedR }
  | .signIn =>
    match ops.signInR with
    | .ok _ => .ok { success := some true }
    | .error e => .ok { success := some false, error := some e }
  | .signOut =>
    match ops.signOutR with
    | .ok _ => .ok { success := some true }
    | .error e => .error e
  | .fetchPlaylists =>
    match ops.fetchPlaylistsR with
    | .ok _ => .ok { success := some true, payloadFields := ["playlists"] }
    | .error e => .ok { success := some false, error := some e }
  | .syncPlaylistMsg =>
    match ops.syncPlaylistR with
    | .ok _ =>
      match ops.updateBadgeR with
      | .ok _ => .ok { success := some true, payloadFields := ["unavailableCount", "videoCount"] }
      | .error e => .ok { success := some false, error := some e }
    | .error e => .ok { success := some false, error := some e }
  | .syncAll => .ok { success := some true, payloadFields := ["synced", "unavailable", "errors"] }
  | .getStoredPlaylists =>
    match ops.getStoredPlaylistsR with
    | .ok _ => .ok { success := some true, payloadFields := ["playlists"] }
    | .error e => .ok { success := some false, error := some e }
  | .getMonitoredPlaylists =>
    match ops.getMonitoredPlaylistsR with
    | .ok _ => .ok { success := some true, payloadFields := ["playlists"] }
    | .error e => .ok { success := some false, error := some e }
  | .toggleMonitor monitored hasPlaylistData =>
    match ops.getPlaylistR with
    | .error e => .ok { success := some false, error := some e }
    | .ok found =>
      match (if found then ops.savePlaylistR
             else if monitored && hasPlaylistData then ops.savePlaylistR
             else .ok ()) with
      | .ok _ => .ok { success := some true }
      | .error e => .ok { success := some false, error := some e }
  | .getSettings =>
    match ops.getSettingsR with
    | .ok _ => .ok { success := some true, payloadFields := ["settings"] }
    | .error e => .ok { success := some false, error := some e }
  | .saveSettings =>
    match ops.saveSettingsR with
    | .error e => .ok { success := some false, error := some e }
    | .ok _ =>
      match ops.setupSyncAlarmR with
      | .ok _ => .ok { success := some true }
      | .error e => .ok { success := some false, error := some e }
  | .updateBadge =>
    match ops.updateBadgeR with
    | .ok _ => .ok { success := some true }
    | .error e => .error e
  | .dismissBadge =>
    match ops.dismissBadgeR with
    | .ok _ => .ok { success := some true }
    | .error e => .error e
  | .otherAction => .ok { success := some false, error := some "Unknown action" }

/-- Claim C8 counterexample: the `getAuthStatus` verb answers
`{ authenticated }` with no `success` key at all, and the `signOut` verb
has no `try`/`catch`, so a failing sign-out escapes the boundary as a
thrown exception instead of a `success:false` response. -/
theorem handleMessage_boundary_violated :
    handleMessage {} .getAuthStatus = .ok { authenticated := some true }
    ∧ ({ authenticated := some true : HandlerResponse }).success = none
    ∧ handleMessage { signOutR := .error "revoke blew up" } .signOut
        = .error "revoke blew up" := ⟨rfl, rfl, rfl⟩

/-- Claim C8 as amended: every verb except `getAuthStatus` that produces a
response gives it a boolean `success` field, and every verb except
`signOut`, `updateBadge` and `dismissBadge` is fully caught — whatever the
collaborator outcomes, it returns a response rather than throwing;
`getAuthStatus` omits `success`, and the three uncaught verbs can
propagate a collaborator failure. -/
theorem handleMessage_boundary_amended (ops : HandlerOps) (a : MsgAction) :
    (a ≠ .getAuthStatus → ∀ r, handleMessage ops a = .ok r → r.success.isSome = true)
    ∧ (a ≠ .signOut → a ≠ .updateBadge → a ≠ .dismissBadge →
        ∃ r, handleMessage ops a = .ok r) := by
  cases a with
  | getAuthStatus =>
    exact ⟨fun h => absurd rfl h, fun _ _ _ => ⟨_, rfl⟩⟩
  | signIn =>
    refine ⟨fun _ r hr => ?_, fun _ _ _ => ?_⟩ <;>
      cases h : ops.signInR <;> simp_all [handleMessage] <;> (try (subst hr; rfl))
  | signOut =>
    refine ⟨fun _ r hr => ?_, fun h _ _ => absurd rfl h⟩
    cases h : ops.signOutR <;> simp_all [handleMessage] <;> (try (subst hr; rfl)) <;> (try (subst hr; rfl))
  | fetchPlaylists =>
    refine ⟨fun _ r hr => ?_, fun _ _ _ => ?_⟩ <;>
      cases h : ops.fetchPlaylistsR <;> simp_all [handleMessage] <;> (try (subst hr; rfl))
  | syncPlaylistMsg =>
    refine ⟨fun _ r hr => ?_, fun _ _ _ => ?_⟩ <;>
      (cases h : ops.syncPlaylistR <;> cases h2 : ops.updateBadgeR <;> simp_all [handleMessage] <;> (try (subst hr; rfl)))
  | syncAll => exact ⟨fun _ r hr => by simp_all [handleMessage]; subst hr; rfl, fun _ _ _ => ⟨_, rfl⟩⟩
  | getStoredPlaylists =>
    refine ⟨fun _ r hr => ?_, fun _ _ _ => ?_⟩ <;>
      cases h : ops.getStoredPlaylistsR <;> simp_all [handleMessage] <;> (try (subst hr; rfl))
  | getMonitoredPlaylists =>
    refine ⟨fun _ r hr => ?_, fun _ _ _ => ?_⟩ <;>
      cases h : ops.getMonitoredPlaylistsR <;> simp_all [handleMessage] <;> (try (subst hr; rfl))
  | toggleMonitor monitored hasPlaylistData =>
    refine ⟨fun _ r hr => ?_, fun _ _ _ => ?_⟩ <;>
      (cases h : ops.getPlaylistR with
       | error e => simp_all [handleMessage] <;> (try (subst hr; rfl))
       | ok found =>
         cases h2 : ops.savePlaylistR <;> cases found <;> cases monitored <;>
           cases hasPlaylistData <;> simp_all [handleMessage] <;> (try (subst hr; rfl)))
  | getSettings =>
    refine ⟨fun _ r hr => ?_, fun _ _ _ => ?_⟩ <;>
      cases h : ops.getSettingsR <;> simp_all [handleMessage] <;> (try (subst hr; rfl))
  | saveSettings =>
    refine ⟨fun _ r hr => ?_, fun _ _ _ => ?_⟩ <;>
      (cases h : ops.saveSettingsR <;> cases h2 : ops.setupSyncAlarmR <;> simp_all [handleMessage] <;> (try (subst hr; rfl)))
  | updateBadge =>
    refine ⟨fun _ r hr => ?_, fun _ h2 _ => absurd rfl h2⟩
    cases h : ops.updateBadgeR <;> simp_all [handleMessage] <;> (try (subst hr; rfl))
  | dismissBadge =>
    refine ⟨fun _ r hr => ?_, fun _ _ h3 => absurd rfl h3⟩
    cases h : ops.dismissBadgeR <;> simp_all [handleMessage] <;> (try (subst hr; rfl))
  | otherAction => exact ⟨fun _ r hr => by simp_all [handleMessage]; subst hr; rfl, fun _ _ _ => ⟨_, rfl⟩⟩

theorem handleMessage_boundary_amended_witness :
    (∀ r, handleMessage { signInR := .error "denied" } .signIn = .ok r →
      r.success.isSome = true)
    ∧ ∃ r, handleMessage { signInR := .error "denied" } .signIn = .ok r :=
  ⟨(handleMessage_boundary_amended { signInR := .error "denied" } .signIn).1 (by decide),
   (handleMessage_boundary_amended { signInR := .error "denied" } .signIn).2
     (by decide) (by decide) (by decide)⟩
